import Mathlib

/-!
Verification of the avt_341 local-planning / control core.

The C++ sources embedded here:
  * `src/control/pid_controller.cpp` — the PID controller with overshoot
    limiting (anti-windup by integral reset at setpoint crossings);
  * `include/avt_341/planning/local/candidate.h` — the `Candidate` value
    type for candidate paths.

Doubles and floats are modelled as rationals (`ℚ`); the C++ statements are
translated statement by statement, with the mutable object state passed
explicitly.  The `Polynomial` class is declared in a header that is not part
of the visible sources, so it is modelled from the specification (see its
doc comment).
-/

namespace avt341

/-- State of `avt_341::control::PidController`: the gains, the setpoint and
the mutable accumulators/flags declared in the class. -/
structure PidController where
  kp : ℚ
  ki : ℚ
  kd : ℚ
  setpoint : ℚ
  previous_error : ℚ
  integral : ℚ
  overshoot_limiter : Bool
  crossed_setpoint : Bool
  deriving Repr, DecidableEq

namespace PidController

/-- Embeds `PidController::PidController()` — the default constructor
(`pid_controller.cpp`, lines 7–16). -/
def init : PidController :=
  { kp := 3/10
    ki := 0
    kd := 1/20
    setpoint := 0
    previous_error := 0
    integral := 0
    overshoot_limiter := true
    crossed_setpoint := false }

/-- Embeds `PidController::GetControlVariable(measured_value, dt)`
(`pid_controller.cpp`, lines 19–41), returning the control output together
with the updated controller state.  Division is rational division (total,
with `x / 0 = 0`); the C++ code divides unconditionally by `dt`. -/
def GetControlVariable (c : PidController) (measured_value dt : ℚ) :
    ℚ × PidController :=
  let error : ℚ := c.setpoint - measured_value
  -- if overshoot limiter turned on, set integral to zero each time it
  -- crosses the setpoint
  let c1 : PidController :=
    if c.overshoot_limiter then
      if error * c.previous_error < 0 then
        { c with integral := 0, crossed_setpoint := true }
      else c
    else c
  -- if overshoot limiter turned on, set ki to zero until it crosses the
  -- setpoint the first time
  let ki : ℚ := if ¬ c1.crossed_setpoint ∧ c1.overshoot_limiter then 0 else c1.ki
  let integral : ℚ := c1.integral + error * dt
  let derivative : ℚ := (error - c1.previous_error) / dt
  let output : ℚ := c1.kp * error + ki * integral + c1.kd * derivative
  (output, { c1 with integral := integral, previous_error := error })

/-- Run a sequence of `GetControlVariable` calls, returning the final state. -/
def runCalls (c : PidController) : List (ℚ × ℚ) → PidController
  | [] => c
  | (m, dt) :: rest => runCalls (c.GetControlVariable m dt).2 rest

/-- Run a sequence of `GetControlVariable` calls, collecting the outputs. -/
def runOutputs (c : PidController) : List (ℚ × ℚ) → List ℚ
  | [] => []
  | (m, dt) :: rest =>
      (c.GetControlVariable m dt).1 :: runOutputs (c.GetControlVariable m dt).2 rest

/-- Holds with value `true` when no call of the sequence has its error change sign strictly
(`error * previous_error < 0`) relative to the state reached at that call. -/
def noCrossing (c : PidController) : List (ℚ × ℚ) → Bool
  | [] => true
  | (m, dt) :: rest =>
      !(decide ((c.setpoint - m) * c.previous_error < 0)) &&
        noCrossing (c.GetControlVariable m dt).2 rest

end PidController

/-- Modelled from the spec: the `Polynomial` class is declared in
`include/avt_341/planning/local/polynomial.h`, which is not among the
visible sources.  Per the spec it is "a cubic function of one real
parameter `s`", immutable once constructed from its coefficients. -/
structure Polynomial where
  a0 : ℚ
  a1 : ℚ
  a2 : ℚ
  a3 : ℚ
  deriving Repr, DecidableEq

namespace Polynomial

/-- Modelled from the spec: `At(s) -> rho` evaluates the curve
(`polynomial.h` is not among the visible sources). -/
def At (p : Polynomial) (s : ℚ) : ℚ :=
  p.a0 + p.a1 * s + p.a2 * s ^ 2 + p.a3 * s ^ 3

/-- Modelled from the spec: `Derivative() -> Polynomial` returns the exact
derivative, "coefficients scaled by their power, one degree lower", with no
side effects (`polynomial.h` is not among the visible sources). -/
def Derivative (p : Polynomial) : Polynomial :=
  { a0 := p.a1, a1 := 2 * p.a2, a2 := 3 * p.a3, a3 := 0 }

end Polynomial

/-- The fields of `avt_341::planning::Candidate` (`candidate.h`,
lines 219–235). -/
structure Candidate where
  curve : Polynomial
  first_deriv : Polynomial
  second_deriv : Polynomial
  out_of_bounds : Bool
  hits_obstacle : Bool
  cost : ℚ
  comfortability : ℚ
  static_safety : ℚ
  segmentation_cost : ℚ
  dynamic_safety : ℚ
  rho_final : ℚ
  max_curvature : ℚ
  max_length : ℚ
  s0 : ℚ
  rank : ℤ
  deriving Repr, DecidableEq

namespace Candidate

/-- Embeds `Candidate::Initialize(Polynomial p)` (`candidate.h`, lines 38–48).
The receiver `c` carries the values of the fields the method does not
assign (they are left as they were). -/
def Initialize (c : Candidate) (p : Polynomial) : Candidate :=
  { c with
    curve := p
    first_deriv := p.Derivative
    second_deriv := p.Derivative.Derivative
    out_of_bounds := false
    hits_obstacle := false
    rank := -1
    max_curvature := 0
    max_length := 100
    s0 := 0 }

/-- Embeds `Candidate::Candidate()` (`candidate.h`, line 24): the empty
constructor has an empty body, so every field keeps the indeterminate
value `mem` of the storage the object is built in. -/
def ctorEmpty (mem : Candidate) : Candidate := mem

/-- Embeds `Candidate::Candidate(Polynomial p)` (`candidate.h`, lines 30–32):
calls `Initialize(p)` on the freshly obtained storage `mem`. -/
def ctorFromPoly (mem : Candidate) (p : Polynomial) : Candidate :=
  Initialize mem p

/-- Embeds `Candidate::operator=(const Candidate &c)` (`candidate.h`,
lines 53–68): assigns the listed fields of `c` to the receiver `a`.
Note the C++ code copies every field except `rho_final_`. -/
def assign (a c : Candidate) : Candidate :=
  { a with
    curve := c.curve
    first_deriv := c.first_deriv
    second_deriv := c.second_deriv
    out_of_bounds := c.out_of_bounds
    hits_obstacle := c.hits_obstacle
    cost := c.cost
    comfortability := c.comfortability
    static_safety := c.static_safety
    dynamic_safety := c.dynamic_safety
    segmentation_cost := c.segmentation_cost
    rank := c.rank
    max_length := c.max_length
    max_curvature := c.max_curvature
    s0 := c.s0 }

/-- Embeds `Candidate::At(float s)` (`candidate.h`, line 74). -/
def At (c : Candidate) (s : ℚ) : ℚ := c.curve.At s

/-- Embeds `Candidate::DerivativeAt(float s)` (`candidate.h`, line 80). -/
def DerivativeAt (c : Candidate) (s : ℚ) : ℚ := c.first_deriv.At s

/-- Embeds `Candidate::SecondDerivativeAt(float s)` (`candidate.h`, line 86). -/
def SecondDerivativeAt (c : Candidate) (s : ℚ) : ℚ := c.second_deriv.At s

/-- Embeds `Candidate::SetOutOfBounds` (`candidate.h`, line 102). -/
def SetOutOfBounds (c : Candidate) (oob : Bool) : Candidate :=
  { c with out_of_bounds := oob }

/-- Embeds `Candidate::SetHitsObstacle` (`candidate.h`, line 108). -/
def SetHitsObstacle (c : Candidate) (ho : Bool) : Candidate :=
  { c with hits_obstacle := ho }

/-- Embeds `Candidate::SetCost` (`candidate.h`, line 114). -/
def SetCost (c : Candidate) (cost : ℚ) : Candidate := { c with cost := cost }

/-- Embeds `Candidate::SetRank` (`candidate.h`, line 125). -/
def SetRank (c : Candidate) (rank : ℤ) : Candidate := { c with rank := rank }

/-- Embeds `Candidate::SetMaxCurvature` (`candidate.h`, line 136). -/
def SetMaxCurvature (c : Candidate) (mc : ℚ) : Candidate :=
  { c with max_curvature := mc }

/-- Embeds `Candidate::SetComfortability` (`candidate.h`, line 147). -/
def SetComfortability (c : Candidate) (comfort : ℚ) : Candidate :=
  { c with comfortability := comfort }

/-- Embeds `Candidate::SetStaticSafety` (`candidate.h`, line 158). -/
def SetStaticSafety (c : Candidate) (stat_safe : ℚ) : Candidate :=
  { c with static_safety := stat_safe }

/-- Embeds `Candidate::SetDynamicSafety` (`candidate.h`, line 169). -/
def SetDynamicSafety (c : Candidate) (dyn_safe : ℚ) : Candidate :=
  { c with dynamic_safety := dyn_safe }

/-- Embeds `Candidate::SetRhoCost` (`candidate.h`, line 180). -/
def SetRhoCost (c : Candidate) (rho_cost : ℚ) : Candidate :=
  { c with rho_final := rho_cost }

/-- Embeds `Candidate::GetRhoCost` (`candidate.h`, line 185). -/
def GetRhoCost (c : Candidate) : ℚ := c.rho_final

/-- Embeds `Candidate::SetMaxLength` (`candidate.h`, line 191). -/
def SetMaxLength (c : Candidate) (ml : ℚ) : Candidate :=
  { c with max_length := ml }

/-- Embeds `Candidate::SetS0` (`candidate.h`, line 202). -/
def SetS0 (c : Candidate) (s0 : ℚ) : Candidate := { c with s0 := s0 }

/-- Embeds `Candidate::SetSegmentationCost` (`candidate.h`, line 212). -/
def SetSegmentationCost (c : Candidate) (segmentation_cost : ℚ) : Candidate :=
  { c with segmentation_cost := segmentation_cost }

end Candidate

end avt341

namespace avt341

/-- Sanity example from the spec: `kp=0.3, ki=0, kd=0.05`, `setpoint=10,
measured=0, dt=1` gives output `3.5` on the first call. -/
theorem spec_worked_example :
    ({ PidController.init with setpoint := 10 }.GetControlVariable 0 1).1
      = 7/2 := by
  norm_num [PidController.GetControlVariable, PidController.init]

namespace PidController

/-- Full characterization of one `GetControlVariable` call, with no
constraint on `dt` (the C++ code performs none).  Shared workhorse lemma. -/
theorem GetControlVariable_eq (c : PidController) (m dt : ℚ) :
    c.GetControlVariable m dt =
      (c.kp * (c.setpoint - m)
        + (if c.overshoot_limiter = true ∧ c.crossed_setpoint = false
              ∧ ¬ ((c.setpoint - m) * c.previous_error < 0) then 0 else c.ki)
          * ((if c.overshoot_limiter = true ∧ (c.setpoint - m) * c.previous_error < 0
                then 0 else c.integral) + (c.setpoint - m) * dt)
        + c.kd * ((c.setpoint - m - c.previous_error) / dt),
       { c with
         integral :=
           (if c.overshoot_limiter = true ∧ (c.setpoint - m) * c.previous_error < 0
              then 0 else c.integral) + (c.setpoint - m) * dt
         previous_error := c.setpoint - m
         crossed_setpoint :=
           c.crossed_setpoint
             || (c.overshoot_limiter
                  && decide ((c.setpoint - m) * c.previous_error < 0)) }) := by
  unfold GetControlVariable
  by_cases ho : c.overshoot_limiter = true <;>
    by_cases hx : (c.setpoint - m) * c.previous_error < 0 <;>
      by_cases hc : c.crossed_setpoint = true <;>
        simp [ho, hx, hc]

end PidController

end avt341

namespace avt341

/-- C1.  PID update law: a call `GetControlVariable(m, dt)` with `dt > 0`
returns `kp*error + ki_eff*integral' + kd*(error - previous_error)/dt`
where `error = setpoint - m`; the integral is first reset to `0` (and
`crossed_setpoint` set) when overshoot limiting is enabled and
`error*previous_error < 0`; `ki_eff = 0` exactly when overshoot limiting is
enabled and `crossed_setpoint` is still false after that reset step,
otherwise `ki_eff = ki`; `integral' = integral + error*dt` is stored; and
`previous_error` is updated to `error`. -/
theorem C1_pid_update_law (c : PidController) (m dt : ℚ) (hdt : 0 < dt) :
    (c.GetControlVariable m dt).1 =
        c.kp * (c.setpoint - m)
        + (if c.overshoot_limiter = true
              ∧ ((if c.overshoot_limiter = true ∧ (c.setpoint - m) * c.previous_error < 0
                    then true else c.crossed_setpoint) : Bool) = false
             then 0 else c.ki)
          * ((if c.overshoot_limiter = true ∧ (c.setpoint - m) * c.previous_error < 0
                then 0 else c.integral) + (c.setpoint - m) * dt)
        + c.kd * ((c.setpoint - m - c.previous_error) / dt)
      ∧ (c.GetControlVariable m dt).2.integral =
          (if c.overshoot_limiter = true ∧ (c.setpoint - m) * c.previous_error < 0
             then 0 else c.integral) + (c.setpoint - m) * dt
      ∧ (c.GetControlVariable m dt).2.previous_error = c.setpoint - m
      ∧ (c.GetControlVariable m dt).2.crossed_setpoint =
          (if c.overshoot_limiter = true ∧ (c.setpoint - m) * c.previous_error < 0
             then true else c.crossed_setpoint) := by
  rw [PidController.GetControlVariable_eq]
  by_cases ho : c.overshoot_limiter = true <;>
    by_cases hx : (c.setpoint - m) * c.previous_error < 0 <;>
      by_cases hc : c.crossed_setpoint = true <;>
        simp_all

/-- Witness for C1 at `c = init`, `m = 5`, `dt = 1`. -/
theorem C1_pid_update_law_witness :
    (PidController.init.GetControlVariable 5 1).1 = -7/4
      ∧ (PidController.init.GetControlVariable 5 1).2.integral = -5
      ∧ (PidController.init.GetControlVariable 5 1).2.previous_error = -5
      ∧ (PidController.init.GetControlVariable 5 1).2.crossed_setpoint = false := by
  have h := C1_pid_update_law PidController.init 5 1 (by norm_num)
  simp only [PidController.init] at h ⊢
  norm_num at h ⊢
  exact h

/-- C2.  PID anti-windup: with overshoot limiting enabled, on any call
whose error strictly changes sign (`error * previous_error < 0`) the
stored integral immediately after the call equals `error * dt` of that
call alone, whatever integral had accumulated before. -/
theorem C2_anti_windup (c : PidController) (m dt : ℚ)
    (ho : c.overshoot_limiter = true)
    (hx : (c.setpoint - m) * c.previous_error < 0) :
    (c.GetControlVariable m dt).2.integral = (c.setpoint - m) * dt := by
  rw [PidController.GetControlVariable_eq]
  simp [ho, hx]

/-- Witness for C2: `previous_error = 1`, accumulated integral `42`,
`setpoint = 0`, measurement `1` (error `-1`), `dt = 2`. -/
theorem C2_anti_windup_witness :
    (({ PidController.init with previous_error := 1, integral := 42 }
        : PidController).GetControlVariable 1 2).2.integral = -2 := by
  have h := C2_anti_windup
    { PidController.init with previous_error := 1, integral := 42 } 1 2
    rfl (by norm_num [PidController.init])
  norm_num [PidController.init] at h
  exact h

/-- C8.  PID initial state: the default constructor yields gains
`kp = 0.3`, `ki = 0`, `kd = 0.05`, overshoot limiting enabled, setpoint 0,
`crossed_setpoint` false, and zero integral and previous error. -/
theorem C8_pid_initial_state :
    PidController.init.kp = 3/10 ∧ PidController.init.ki = 0
      ∧ PidController.init.kd = 1/20
      ∧ PidController.init.overshoot_limiter = true
      ∧ PidController.init.setpoint = 0
      ∧ PidController.init.crossed_setpoint = false
      ∧ PidController.init.integral = 0
      ∧ PidController.init.previous_error = 0 := by
  norm_num [PidController.init]

/-- One call never clears `crossed_setpoint`. -/
theorem crossed_setpoint_step_mono (c : PidController) (m dt : ℚ)
    (h : c.crossed_setpoint = true) :
    (c.GetControlVariable m dt).2.crossed_setpoint = true := by
  rw [PidController.GetControlVariable_eq]
  simp [h]

/-- C9.  `crossed_setpoint` is monotone: once true, it stays true under any
further sequence of `GetControlVariable` calls. -/
theorem C9_crossed_setpoint_monotone (c : PidController)
    (calls : List (ℚ × ℚ)) (h : c.crossed_setpoint = true) :
    (PidController.runCalls c calls).crossed_setpoint = true := by
  induction calls generalizing c with
  | nil => exact h
  | cons p rest ih =>
      obtain ⟨m, dt⟩ := p
      exact ih _ (crossed_setpoint_step_mono c m dt h)

/-- Witness for C9: a two-call sequence from a crossed state. -/
theorem C9_crossed_setpoint_monotone_witness :
    (PidController.runCalls
        { PidController.init with crossed_setpoint := true }
        [(1, 1), (-2, 1)]).crossed_setpoint = true :=
  C9_crossed_setpoint_monotone
    { PidController.init with crossed_setpoint := true } [(1, 1), (-2, 1)] rfl

/-- With overshoot limiting on, `crossed_setpoint` still false, and no sign
change on this call, the output does not depend on the configured `ki`, and
the state evolves identically apart from the `ki` field itself. -/
theorem step_ki_irrelevant (c : PidController) (m dt k : ℚ)
    (ho : c.overshoot_limiter = true) (hc : c.crossed_setpoint = false)
    (hx : ¬ ((c.setpoint - m) * c.previous_error < 0)) :
    ({ c with ki := k }.GetControlVariable m dt).1 = (c.GetControlVariable m dt).1
      ∧ ({ c with ki := k }.GetControlVariable m dt).2
          = { (c.GetControlVariable m dt).2 with ki := k } := by
  rw [PidController.GetControlVariable_eq, PidController.GetControlVariable_eq]
  simp [ho, hc, hx]

/-- One call with no sign change keeps `crossed_setpoint` false and
preserves the overshoot-limiter flag. -/
theorem step_no_crossing_state (c : PidController) (m dt : ℚ)
    (hc : c.crossed_setpoint = false)
    (hx : ¬ ((c.setpoint - m) * c.previous_error < 0)) :
    (c.GetControlVariable m dt).2.crossed_setpoint = false
      ∧ (c.GetControlVariable m dt).2.overshoot_limiter = c.overshoot_limiter := by
  rw [PidController.GetControlVariable_eq]
  simp [hc, hx]

/-- Shared induction: over any crossing-free call sequence started with
overshoot limiting on and `crossed_setpoint` false, changing `ki` changes
neither the outputs nor any state component other than `ki`, and
`crossed_setpoint` stays false. -/
theorem run_ki_irrelevant (calls : List (ℚ × ℚ)) :
    ∀ (c : PidController) (k : ℚ), c.overshoot_limiter = true →
      c.crossed_setpoint = false → PidController.noCrossing c calls = true →
      PidController.runOutputs { c with ki := k } calls
          = PidController.runOutputs c calls
        ∧ PidController.runCalls { c with ki := k } calls
            = { PidController.runCalls c calls with ki := k }
        ∧ (PidController.runCalls c calls).crossed_setpoint = false := by
  induction calls with
  | nil =>
      intro c k _ hc _
      exact ⟨rfl, rfl, hc⟩
  | cons p rest ih =>
      obtain ⟨m, dt⟩ := p
      intro c k ho hc hnc
      rw [PidController.noCrossing, Bool.and_eq_true, Bool.not_eq_true',
        decide_eq_false_iff_not] at hnc
      obtain ⟨hx, hrest⟩ := hnc
      have hstep := step_ki_irrelevant c m dt k ho hc hx
      have hstate := step_no_crossing_state c m dt hc hx
      have ihres := ih (c.GetControlVariable m dt).2 k
        (hstate.2.trans ho) hstate.1 hrest
      refine ⟨?_, ?_, ?_⟩
      · rw [PidController.runOutputs, PidController.runOutputs,
          hstep.1, hstep.2, ihres.1]
      · rw [PidController.runCalls, PidController.runCalls,
          hstep.2, ihres.2.1]
      · rw [PidController.runCalls]
        exact ihres.2.2

/-- C3.  Pre-crossing ki-independence: two controllers differing only in
the configured `ki` gain, both with overshoot limiting enabled and
`crossed_setpoint` false, produce identical outputs on any identical
sequence of calls in which no error sign crossing occurs. -/
theorem C3_pre_crossing_ki_independence (c : PidController) (k : ℚ)
    (calls : List (ℚ × ℚ)) (ho : c.overshoot_limiter = true)
    (hc : c.crossed_setpoint = false)
    (hnc : PidController.noCrossing c calls = true) :
    PidController.runOutputs c calls
      = PidController.runOutputs { c with ki := k } calls :=
  (run_ki_irrelevant calls c k ho hc hnc).1.symm

/-- Witness for C3: `init` (ki = 0) against the same controller with
`ki = 7`, over a two-call crossing-free sequence. -/
theorem C3_pre_crossing_ki_independence_witness :
    PidController.runOutputs PidController.init [(1, 1), (2, 1)]
      = PidController.runOutputs
          { PidController.init with ki := 7 } [(1, 1), (2, 1)] :=
  C3_pre_crossing_ki_independence PidController.init 7 [(1, 1), (2, 1)]
    rfl rfl
    (by norm_num [PidController.noCrossing, PidController.GetControlVariable,
          PidController.init])

/-- C10.  Strict crossing required: the integral reset and the setting of
`crossed_setpoint` trigger only on `error * previous_error < 0`.  A call
with error exactly zero triggers neither on that call nor on the next one,
and a crossing-free run started with overshoot limiting on and
`crossed_setpoint` false keeps `crossed_setpoint` false throughout and
behaves exactly like the same controller with `ki = 0` (integral action
never enabled). -/
theorem C10_strict_crossing_required :
    (∀ (c : PidController) (m dt : ℚ), c.setpoint - m = 0 →
        (c.GetControlVariable m dt).2.crossed_setpoint = c.crossed_setpoint
      ∧ (c.GetControlVariable m dt).2.integral
          = c.integral + (c.setpoint - m) * dt
      ∧ ∀ (m' dt' : ℚ),
          ((c.GetControlVariable m dt).2.GetControlVariable m' dt').2.crossed_setpoint
              = c.crossed_setpoint
        ∧ ((c.GetControlVariable m dt).2.GetControlVariable m' dt').2.integral
            = (c.GetControlVariable m dt).2.integral
              + ((c.GetControlVariable m dt).2.setpoint - m') * dt')
    ∧ (∀ (c : PidController) (calls : List (ℚ × ℚ)),
        c.overshoot_limiter = true → c.crossed_setpoint = false →
        PidController.noCrossing c calls = true →
        (PidController.runCalls c calls).crossed_setpoint = false
      ∧ PidController.runOutputs c calls
          = PidController.runOutputs { c with ki := 0 } calls) := by
  constructor
  · intro c m dt h0
    have hx : ¬ ((c.setpoint - m) * c.previous_error < 0) := by
      rw [h0, zero_mul]
      exact lt_irrefl 0
    have hcr : (c.GetControlVariable m dt).2.crossed_setpoint
        = c.crossed_setpoint := by
      rw [PidController.GetControlVariable_eq]
      simp [hx]
    have hint : (c.GetControlVariable m dt).2.integral
        = c.integral + (c.setpoint - m) * dt := by
      rw [PidController.GetControlVariable_eq]
      simp [hx]
    refine ⟨hcr, hint, ?_⟩
    intro m' dt'
    have hprev : (c.GetControlVariable m dt).2.previous_error = 0 := by
      rw [PidController.GetControlVariable_eq]
      exact h0
    have hx2 : ¬ (((c.GetControlVariable m dt).2.setpoint - m')
        * (c.GetControlVariable m dt).2.previous_error < 0) := by
      rw [hprev, mul_zero]
      exact lt_irrefl 0
    constructor
    · rw [PidController.GetControlVariable_eq ((c.GetControlVariable m dt).2)]
      simpa [hx2] using hcr
    · rw [PidController.GetControlVariable_eq ((c.GetControlVariable m dt).2)]
      simp [hx2]
  · intro c calls ho hc hnc
    have h := run_ki_irrelevant calls c 0 ho hc hnc
    exact ⟨h.2.2, h.1.symm⟩

/-- Witness for C10: `init` with a zero-error call followed by an arbitrary
call, and a one-call crossing-free run. -/
theorem C10_strict_crossing_required_witness :
    ((PidController.init.GetControlVariable 0 1).2.crossed_setpoint
        = PidController.init.crossed_setpoint
      ∧ (PidController.init.GetControlVariable 0 1).2.integral
          = PidController.init.integral + (PidController.init.setpoint - 0) * 1
      ∧ (((PidController.init.GetControlVariable 0 1).2.GetControlVariable 5 1).2.crossed_setpoint
            = PidController.init.crossed_setpoint
        ∧ ((PidController.init.GetControlVariable 0 1).2.GetControlVariable 5 1).2.integral
            = (PidController.init.GetControlVariable 0 1).2.integral
              + ((PidController.init.GetControlVariable 0 1).2.setpoint - 5) * 1))
    ∧ ((PidController.runCalls PidController.init [(1, 1)]).crossed_setpoint = false
      ∧ PidController.runOutputs PidController.init [(1, 1)]
          = PidController.runOutputs
              { PidController.init with ki := 0 } [(1, 1)]) := by
  constructor
  · have h := C10_strict_crossing_required.1 PidController.init 0 1
      (by norm_num [PidController.init])
    exact ⟨h.1, h.2.1, h.2.2 5 1⟩
  · exact C10_strict_crossing_required.2 PidController.init [(1, 1)] rfl rfl
      (by norm_num [PidController.noCrossing, PidController.GetControlVariable,
            PidController.init])

/-- C4 counterexample: a call with `dt = 0` is not rejected — the code has
no validation of `dt` and the call returns a control output (here for the
default controller and measurement `5`; the derivative term divides by
`dt`, rendered total in the rational model). -/
theorem C4_dt_zero_returns_output :
    (PidController.init.GetControlVariable 5 0).1 = -3/2
      ∧ (PidController.init.GetControlVariable 5 0).2.previous_error = -5 := by
  norm_num [PidController.GetControlVariable, PidController.init]

/-- C4 amended: `GetControlVariable` never rejects its arguments; for any
`dt ≤ 0` the call proceeds, stores `previous_error = setpoint - m`, and
returns the computed output (whose derivative term divides by `dt`). -/
theorem C4_no_dt_validation (c : PidController) (m dt : ℚ) (hdt : dt ≤ 0) :
    (c.GetControlVariable m dt).1 =
        c.kp * (c.setpoint - m)
        + (if c.overshoot_limiter = true ∧ c.crossed_setpoint = false
              ∧ ¬ ((c.setpoint - m) * c.previous_error < 0) then 0 else c.ki)
          * ((if c.overshoot_limiter = true
                ∧ (c.setpoint - m) * c.previous_error < 0
                then 0 else c.integral) + (c.setpoint - m) * dt)
        + c.kd * ((c.setpoint - m - c.previous_error) / dt)
      ∧ (c.GetControlVariable m dt).2.previous_error = c.setpoint - m := by
  rw [PidController.GetControlVariable_eq]
  exact ⟨rfl, rfl⟩

/-- Witness for the amended C4 at `c = init`, `m = 5`, `dt = 0`. -/
theorem C4_no_dt_validation_witness :
    (PidController.init.GetControlVariable 5 0).1 =
        PidController.init.kp * (PidController.init.setpoint - 5)
        + (if PidController.init.overshoot_limiter = true
              ∧ PidController.init.crossed_setpoint = false
              ∧ ¬ ((PidController.init.setpoint - 5)
                    * PidController.init.previous_error < 0)
             then 0 else PidController.init.ki)
          * ((if PidController.init.overshoot_limiter = true
                ∧ (PidController.init.setpoint - 5)
                    * PidController.init.previous_error < 0
                then 0 else PidController.init.integral)
              + (PidController.init.setpoint - 5) * 0)
        + PidController.init.kd
          * ((PidController.init.setpoint - 5
              - PidController.init.previous_error) / 0)
      ∧ (PidController.init.GetControlVariable 5 0).2.previous_error
          = PidController.init.setpoint - 5 :=
  C4_no_dt_validation PidController.init 5 0 le_rfl

/-- A fully concrete block of `Candidate` storage, used as the
indeterminate initial memory of constructed objects in counterexamples. -/
def memJunk : Candidate :=
  { curve := ⟨0, 0, 0, 0⟩
    first_deriv := ⟨0, 0, 0, 0⟩
    second_deriv := ⟨0, 0, 0, 0⟩
    out_of_bounds := true
    hits_obstacle := true
    cost := 0
    comfortability := 0
    static_safety := 0
    segmentation_cost := 0
    dynamic_safety := 0
    rho_final := 0
    max_curvature := 9
    max_length := 0
    s0 := 4
    rank := 3 }

/-- C5.  Failing input for the claim that assignment copies every
attribute: two initialized candidates whose `rho_final_` values differ
(`1` vs `5`).  `operator=` copies every field except `rho_final_`, so
after `a = b` the value read back by `GetRhoCost` on `a` is still `1`,
not `5`. -/
theorem C5_assignment_drops_rho_cost :
    (Candidate.assign
        ((Candidate.ctorFromPoly memJunk ⟨0, 0, 0, 0⟩).SetRhoCost 1)
        ((Candidate.ctorFromPoly memJunk ⟨0, 0, 0, 0⟩).SetRhoCost 5)).GetRhoCost
        = 1
      ∧ ((Candidate.ctorFromPoly memJunk ⟨0, 0, 0, 0⟩).SetRhoCost 5).GetRhoCost
          = 5
      ∧ (Candidate.assign
          ((Candidate.ctorFromPoly memJunk ⟨0, 0, 0, 0⟩).SetRhoCost 1)
          ((Candidate.ctorFromPoly memJunk ⟨0, 0, 0, 0⟩).SetRhoCost 5)).GetRhoCost
          ≠ ((Candidate.ctorFromPoly memJunk ⟨0, 0, 0, 0⟩).SetRhoCost 5).GetRhoCost := by
  refine ⟨rfl, rfl, ?_⟩
  norm_num [Candidate.assign, Candidate.GetRhoCost, Candidate.SetRhoCost,
    Candidate.ctorFromPoly, Candidate.Initialize, memJunk]

/-- C6 counterexample: the empty constructor `Candidate()` has an empty
body, so a Candidate built in storage holding `out_of_bounds = true` and
`rank = 3` keeps those values — the claimed defaults do not hold for the
empty constructor. -/
theorem C6_empty_ctor_no_defaults :
    (Candidate.ctorEmpty memJunk).out_of_bounds = true
      ∧ (Candidate.ctorEmpty memJunk).rank = 3
      ∧ (Candidate.ctorEmpty memJunk).max_length = 0
      ∧ (Candidate.ctorEmpty memJunk).s0 = 4
      ∧ (Candidate.ctorEmpty memJunk).max_curvature = 9 :=
  ⟨rfl, rfl, rfl, rfl, rfl⟩

/-- C6 amended: construction from a Polynomial (via `Initialize`) does
establish the defaults — `out_of_bounds` and `hits_obstacle` false, rank
`-1`, `max_curvature` 0, `max_length` 100, `s0` 0 — for every initial
storage content and every polynomial; the empty constructor leaves the
object exactly as the storage was. -/
theorem C6_candidate_defaults (mem : Candidate) (p : Polynomial) :
    (Candidate.ctorFromPoly mem p).out_of_bounds = false
      ∧ (Candidate.ctorFromPoly mem p).hits_obstacle = false
      ∧ (Candidate.ctorFromPoly mem p).rank = -1
      ∧ (Candidate.ctorFromPoly mem p).max_curvature = 0
      ∧ (Candidate.ctorFromPoly mem p).max_length = 100
      ∧ (Candidate.ctorFromPoly mem p).s0 = 0
      ∧ Candidate.ctorEmpty mem = mem :=
  ⟨rfl, rfl, rfl, rfl, rfl, rfl, rfl⟩

/-- The modelled `Polynomial.Derivative` is the exact analytic derivative
of `Polynomial.At`, at every point. -/
theorem Polynomial.hasDerivAt_At (p : Polynomial) (s : ℚ) :
    HasDerivAt (fun x => p.At x) (p.Derivative.At s) s := by
  have h1 : HasDerivAt (fun _ : ℚ => p.a0) 0 s := hasDerivAt_const s p.a0
  have h2 : HasDerivAt (fun x : ℚ => p.a1 * x) (p.a1 * 1) s :=
    (hasDerivAt_id s).const_mul p.a1
  have h3 : HasDerivAt (fun x : ℚ => p.a2 * x ^ 2)
      (p.a2 * ((2 : ℕ) * s ^ 1)) s := (hasDerivAt_pow 2 s).const_mul p.a2
  have h4 : HasDerivAt (fun x : ℚ => p.a3 * x ^ 3)
      (p.a3 * ((3 : ℕ) * s ^ 2)) s := (hasDerivAt_pow 3 s).const_mul p.a3
  have h := ((h1.add h2).add h3).add h4
  have hval : p.Derivative.At s
      = 0 + p.a1 * 1 + p.a2 * ((2 : ℕ) * s ^ 1) + p.a3 * ((3 : ℕ) * s ^ 2) := by
    unfold Polynomial.Derivative Polynomial.At
    push_cast
    ring
  have hfun : (fun x => p.At x)
      = fun x : ℚ => p.a0 + p.a1 * x + p.a2 * x ^ 2 + p.a3 * x ^ 3 := rfl
  rw [hfun, hval]
  exact h

/-- C7.  Derivative invariant: after any `Initialize(p)` (hence for any
Candidate constructed from a Polynomial), `DerivativeAt` is the exact
analytic derivative of the curve and `SecondDerivativeAt` the exact
analytic derivative of `DerivativeAt`, at every `s`; and no other
operation of the class touches `curve`, `first_deriv` or `second_deriv`
except the assignment operator, which copies all three together from its
source. -/
theorem C7_derivative_invariant :
    (∀ (c : Candidate) (p : Polynomial) (s : ℚ),
        HasDerivAt (fun x => (c.Initialize p).At x)
          ((c.Initialize p).DerivativeAt s) s
      ∧ HasDerivAt (fun x => (c.Initialize p).DerivativeAt x)
          ((c.Initialize p).SecondDerivativeAt s) s)
    ∧ (∀ (mem c : Candidate) (p : Polynomial) (s : ℚ),
        Candidate.ctorFromPoly mem p = Candidate.Initialize mem p
      ∧ (c.Initialize p).curve = p
      ∧ (c.Initialize p).first_deriv = p.Derivative
      ∧ (c.Initialize p).second_deriv = p.Derivative.Derivative
      ∧ (c.Initialize p).DerivativeAt s = p.Derivative.At s
      ∧ (c.Initialize p).SecondDerivativeAt s = p.Derivative.Derivative.At s)
    ∧ (∀ (a b : Candidate),
        (Candidate.assign a b).curve = b.curve
      ∧ (Candidate.assign a b).first_deriv = b.first_deriv
      ∧ (Candidate.assign a b).second_deriv = b.second_deriv)
    ∧ (∀ (c : Candidate) (q : ℚ) (i : ℤ) (bv : Bool),
        ((c.SetOutOfBounds bv).curve, (c.SetOutOfBounds bv).first_deriv,
          (c.SetOutOfBounds bv).second_deriv)
            = (c.curve, c.first_deriv, c.second_deriv)
      ∧ ((c.SetHitsObstacle bv).curve, (c.SetHitsObstacle bv).first_deriv,
          (c.SetHitsObstacle bv).second_deriv)
            = (c.curve, c.first_deriv, c.second_deriv)
      ∧ ((c.SetCost q).curve, (c.SetCost q).first_deriv,
          (c.SetCost q).second_deriv)
            = (c.curve, c.first_deriv, c.second_deriv)
      ∧ ((c.SetRank i).curve, (c.SetRank i).first_deriv,
          (c.SetRank i).second_deriv)
            = (c.curve, c.first_deriv, c.second_deriv)
      ∧ ((c.SetMaxCurvature q).curve, (c.SetMaxCurvature q).first_deriv,
          (c.SetMaxCurvature q).second_deriv)
            = (c.curve, c.first_deriv, c.second_deriv)
      ∧ ((c.SetComfortability q).curve, (c.SetComfortability q).first_deriv,
          (c.SetComfortability q).second_deriv)
            = (c.curve, c.first_deriv, c.second_deriv)
      ∧ ((c.SetStaticSafety q).curve, (c.SetStaticSafety q).first_deriv,
          (c.SetStaticSafety q).second_deriv)
            = (c.curve, c.first_deriv, c.second_deriv)
      ∧ ((c.SetDynamicSafety q).curve, (c.SetDynamicSafety q).first_deriv,
          (c.SetDynamicSafety q).second_deriv)
            = (c.curve, c.first_deriv, c.second_deriv)
      ∧ ((c.SetRhoCost q).curve, (c.SetRhoCost q).first_deriv,
          (c.SetRhoCost q).second_deriv)
            = (c.curve, c.first_deriv, c.second_deriv)
      ∧ ((c.SetMaxLength q).curve, (c.SetMaxLength q).first_deriv,
          (c.SetMaxLength q).second_deriv)
            = (c.curve, c.first_deriv, c.second_deriv)
      ∧ ((c.SetS0 q).curve, (c.SetS0 q).first_deriv,
          (c.SetS0 q).second_deriv)
            = (c.curve, c.first_deriv, c.second_deriv)
      ∧ ((c.SetSegmentationCost q).curve,
          (c.SetSegmentationCost q).first_deriv,
          (c.SetSegmentationCost q).second_deriv)
            = (c.curve, c.first_deriv, c.second_deriv)) := by
  refine ⟨?_, ?_, ?_, ?_⟩
  · intro c p s
    constructor
    · exact Polynomial.hasDerivAt_At p s
    · exact Polynomial.hasDerivAt_At p.Derivative s
  · intro mem c p s
    exact ⟨rfl, rfl, rfl, rfl, rfl, rfl⟩
  · intro a b
    exact ⟨rfl, rfl, rfl⟩
  · intro c q i bv
    exact ⟨rfl, rfl, rfl, rfl, rfl, rfl, rfl, rfl, rfl, rfl, rfl, rfl⟩

end avt341
